import Mathlib

/- Formal model of the salt-cloud DigitalOcean driver
   (src/salt/cloud/clouds/digital_ocean.py).

   The Python module is shallowly embedded: each modelled function mirrors the
   control flow of its source counterpart, with the remote HTTP layer abstracted
   as explicit response values handed to the function, and Python exceptions
   modelled as an explicit error type threaded through Except. Truthiness of
   Python values is modelled explicitly where the source branches on it. -/

set_option autoImplicit false

/-- Python-level exceptions that the modelled code can raise. The salt
exceptions mirror the imports at the top of digital_ocean.py; keyError,
attributeError and nameError model the built-in Python exceptions that dict
lookup, attribute access and unbound-local access raise. -/
inductive PyError where
  | keyError (key : String)
  | attributeError (attr : String)
  | nameError (localVar : String)
  | saltCloudSystemExit (msg : String)
  | saltCloudNotFound (msg : String)
  | saltCloudConfigError (msg : String)
  | saltCloudExecutionTimeout (msg : String)
  | saltCloudExecutionFailure (msg : String)
  deriving Repr, DecidableEq

/-- Decoded JSON values, the shape json.loads produces in query. Objects are
association lists with the first binding of a key the authoritative one. -/
inductive JVal where
  | null
  | bool (b : Bool)
  | num (n : Int)
  | str (s : String)
  | arr (elems : List JVal)
  | obj (fields : List (String × JVal))

/-- Python dict.get on a decoded JSON object: the value bound to the key, if
present. -/
def jLookup : List (String × JVal) → String → Option JVal
  | [], _ => none
  | (k2, v) :: rest, k => if k2 = k then some v else jLookup rest k

/-- Python truthiness of a decoded JSON value. -/
def jTruthy : JVal → Bool
  | .null => false
  | .bool b => b
  | .num n => n != 0
  | .str s => s != ""
  | .arr elems => !elems.isEmpty
  | .obj fields => !fields.isEmpty

/-- ASCII lower-casing of one character, the behaviour of Python str.lower on
the ASCII range used by slugs and status fields. -/
def lowerChar (c : Char) : Char :=
  if 65 ≤ c.toNat ∧ c.toNat ≤ 90 then Char.ofNat (c.toNat + 32) else c

/-- Python str.lower restricted to ASCII input. -/
def pyLower (s : String) : String := String.mk (s.data.map lowerChar)

/-- Message of the SaltCloudSystemExit that query raises for an HTTP status
above 299 (digital_ocean.py lines 536-544); the raw response text appended in
the source is abstracted away. -/
def httpErrMsg (code : Nat) : String :=
  "An error occurred while querying DigitalOcean. HTTP Code: " ++ toString code

/-- Message of the SaltCloudSystemExit that query raises when a decoded 2xx
body carries a status field equal to error (lines 555-558); the source formats
the error_message field of the body, abstracted here since no claim depends on
the text. -/
def statusErrorMsg : String := "DigitalOcean API returned an error payload"

/-- Result of a successful query call: True for a 204 response, else the
decoded JSON body. -/
inductive QueryOut where
  | sentinelTrue
  | json (v : JVal)

/-- Python truthiness of the value query returns. -/
def queryOutTruthy : QueryOut → Bool
  | .sentinelTrue => true
  | .json v => jTruthy v

/-- Embeds the response handling of query (digital_ocean.py lines 536-560):
raise SaltCloudSystemExit for a status code above 299; return the success
sentinel True for 204; otherwise inspect the decoded body, raising when its
status field lower-cases to error. A non-object body has no get method and a
non-string status field has no lower method, so both raise AttributeError,
mirroring Python. The body is taken already decoded; json.loads itself is
outside the model. -/
def queryHandle (status_code : Nat) (body : JVal) : Except PyError QueryOut :=
  if 299 < status_code then
    .error (.saltCloudSystemExit (httpErrMsg status_code))
  else if status_code = 204 then
    .ok .sentinelTrue
  else
    match body with
    | .obj fields =>
      match jLookup fields "status" with
      | none => .ok (.json body)
      | some (.str s) =>
        if pyLower s = "error" then .error (.saltCloudSystemExit statusErrorMsg)
        else .ok (.json body)
      | some _ => .error (.attributeError "lower")
    | _ => .error (.attributeError "get")

/-- An HTTP response as seen by the modelled query: numeric status code plus
the decoded body. -/
structure HttpResponse where
  status_code : Nat
  body : JVal

/-- The modelled query applied to a whole response. -/
def queryResp (r : HttpResponse) : Except PyError QueryOut :=
  queryHandle r.status_code r.body

/-- One entry of a droplet network list: the facing tag (public or private)
and the address, as in the v4 and v6 lists of the networks dict. -/
structure NetAddr where
  type : String
  ip_address : String
  deriving Repr, DecidableEq

/-- The networks dict of a droplet: the v4 and v6 address lists. An absent
family key and an empty list are both modelled as the empty list, which has
the same truthiness under the .get calls the source performs. -/
structure Networks where
  v4 : List NetAddr
  v6 : List NetAddr
  deriving Repr, DecidableEq

/-- A droplet as the poll sees it: its name and its networks dict. -/
structure Droplet where
  name : String
  networks : Networks
  deriving Repr, DecidableEq

/-- Embeds create.__query_node_data (digital_ocean.py lines 426-435): an empty
show_instance result (modelled none) is not ready; otherwise the v4 list is
scanned and the droplet returned at the first address tagged public; in every
other case the poll reports not-ready (False, modelled none). The v6 list is
never consulted. -/
def queryNodeData (data : Option Droplet) : Option Droplet :=
  match data with
  | none => none
  | some d =>
    if !d.networks.v4.isEmpty then
      if d.networks.v4.any (fun n => n.type == "public") then some d else none
    else none

/-- Message of the timeout error raised when the poll budget is exhausted. -/
def waitTimeoutMsg : String := "Unable to connect to IP within the allotted time"

/-- Modelled from the spec: salt.utils.cloud.wait_for_ip is part of this
repository but not under src/. Spec section 4.4 step 5 and section 5: the
update callback is polled once per interval, a truthy result is returned to
the caller, a falsy one sleeps and retries, and exhausting the timeout budget
raises the execution-timeout error. fuel is the number of polls the timeout
allows and k counts the polls already made. -/
def waitForIp (update : Nat → Option Droplet) : Nat → Nat → Except PyError Droplet
  | 0, _ => .error (.saltCloudExecutionTimeout waitTimeoutMsg)
  | fuel + 1, k =>
    match update k with
    | some d => .ok d
    | none => waitForIp update fuel (k + 1)

deriving instance DecidableEq for Except

/-- Observable outcome of the wait-and-compensate section of create: the names
destroy was called with, in order, and the value create produces. -/
structure CreateTrace where
  destroys : List String
  result : Except PyError Droplet
  deriving Repr, DecidableEq

/-- Embeds the try-except around wait_for_ip in create (digital_ocean.py lines
437-453). A SaltCloudExecutionTimeout or SaltCloudExecutionFailure from the
wait is caught; the handler calls destroy(name) once, the inner except
swallows a SaltCloudSystemExit from that destroy, and the finally clause
raises SaltCloudSystemExit(str(exc)) of the original wait error regardless,
which in Python supersedes any other exception the destroy raised; so the
destroy outcome never changes the surfaced error. Any other error from the
wait would propagate uncaught, with no destroy issued. -/
def createPollExcept (name : String) (waitResult : Except PyError Droplet)
    (destroyResult : Except PyError QueryOut) : CreateTrace :=
  match waitResult with
  | .ok d => ⟨[], .ok d⟩
  | .error (.saltCloudExecutionTimeout m) =>
    let _ := destroyResult
    ⟨[name], .error (.saltCloudSystemExit m)⟩
  | .error (.saltCloudExecutionFailure m) =>
    let _ := destroyResult
    ⟨[name], .error (.saltCloudSystemExit m)⟩
  | .error e => ⟨[], .error e⟩

/-- The wait phase of create wired together: poll the address source through
__query_node_data under wait_for_ip, then apply the exception handling.
source k is the show_instance result the k-th poll observes and polls is the
poll budget the configured timeout and interval allow. -/
def createWaitPhase (name : String) (polls : Nat) (source : Nat → Option Droplet)
    (destroyResult : Except PyError QueryOut) : CreateTrace :=
  createPollExcept name (waitForIp (fun k => queryNodeData (source k)) polls 0) destroyResult

/-- Splits a list of characters at every dot, the behaviour of Python
str.split with separator dot: adjacent dots and boundary dots yield empty
segments and the empty string yields one empty segment. -/
def splitDotAux : List Char → List (List Char)
  | [] => [[]]
  | c :: cs =>
    match splitDotAux cs with
    | r :: rs => if c = '.' then [] :: r :: rs else (c :: r) :: rs
    | [] => if c = '.' then [[], []] else [[c]]

/-- Python name.split with separator dot on a string. -/
def pySplitDot (s : String) : List String := (splitDotAux s.data).map String.mk

/-- Python str.join with separator dot. -/
def joinDot : List String → String
  | [] => ""
  | [s] => s
  | s :: s2 :: rest => s ++ "." ++ joinDot (s2 :: rest)

/-- Embeds the default DNS hostname and domain inference in create
(digital_ocean.py lines 376-384): with more than two dot-separated labels the
last two joined form the default domain and the rest the default hostname;
otherwise no domain is inferred (None) and the default hostname is the first
label only. -/
def createDnsDefaults (name : String) : Option String × String :=
  let parts := pySplitDot name
  if 2 < parts.length then
    (some (joinDot (parts.drop (parts.length - 2))),
     joinDot (parts.take (parts.length - 2)))
  else
    (none, parts.headD "")

/-- Message of the SaltCloudConfigError raised when create cannot determine
both a DNS hostname and a DNS domain (lines 397-401). -/
def configErrMsg : String :=
  "create_dns_record must specify domain and hostname or the minion name must be an FQDN"

/-- Embeds create lines 386-401 with create_dns_record requested and no
explicit dns_hostname or dns_domain override: the defaults are taken as-is
and a falsy hostname or domain raises SaltCloudConfigError. -/
def createDnsSetup (name : String) : Except PyError (String × String) :=
  match createDnsDefaults name with
  | (some ddom, dhost) =>
    if dhost ≠ "" ∧ ddom ≠ "" then .ok (dhost, ddom)
    else .error (.saltCloudConfigError configErrMsg)
  | (none, _) => .error (.saltCloudConfigError configErrMsg)

/-- Embeds the domain and hostname derivation of destroy_dns_records
(digital_ocean.py lines 846-847): domain is the join of the last two labels
and hostname the join of all labels before them, for every input. -/
def destroyDnsDerive (fqdn : String) : String × String :=
  let parts := pySplitDot fqdn
  (joinDot (parts.drop (parts.length - 2)),
   joinDot (parts.take (parts.length - 2)))

/-- One DNS record as returned under a domain: numeric id, record name and
record type. The type field is carried but never consulted by the cleanup
filter, mirroring the source. -/
structure DnsRecord where
  id : Nat
  name : String
  rtype : String
  deriving Repr, DecidableEq

/-- Observable outcome of the DNS cleanup: the derived domain, the record ids
a deletion call was issued for, in order, and the returned value or the
propagated error. -/
structure DnsCleanupTrace where
  domain : String
  attempted : List Nat
  result : Except PyError Bool
  deriving Repr, DecidableEq

/-- Embeds the deletion loop of destroy_dns_records (digital_ocean.py lines
855-866). deleteOk id tells whether the deletion call for that id succeeds
(false means query raised SaltCloudSystemExit, which the except swallows). The
local ret is bound only by a successful deletion; the debug log after the
except formats ret, so when no deletion has succeeded yet that log line raises
NameError for the unbound local, aborting the loop. retBound carries the
current binding state of ret. -/
def dnsDeleteLoop (deleteOk : Nat → Bool) :
    List Nat → Option Unit → List Nat × Except PyError Bool
  | [], _ => ([], .ok false)
  | id :: rest, retBound =>
    let retAfter := if deleteOk id then some () else retBound
    match retAfter with
    | none => ([id], .error (.nameError "ret"))
    | some u =>
      let next := dnsDeleteLoop deleteOk rest (some u)
      (id :: next.1, next.2)

/-- Embeds destroy_dns_records (digital_ocean.py lines 842-868): derive domain
and hostname from the fqdn, take the records fetched under that domain, filter
the ids of the records whose name equals the derived hostname (every record
type), and run the deletion loop over them; an empty record list skips the
loop. The function returns False on normal completion. records is the
domain_records array of the fetch response and deleteOk the outcome of each
deletion call. -/
def destroy_dns_records (fqdn : String) (records : List DnsRecord)
    (deleteOk : Nat → Bool) : DnsCleanupTrace :=
  let dh := destroyDnsDerive fqdn
  if records.isEmpty then ⟨dh.1, [], .ok false⟩
  else
    let record_ids := (records.filter (fun r => r.name == dh.2)).map (fun r => r.id)
    let out := dnsDeleteLoop deleteOk record_ids none
    ⟨dh.1, out.1, out.2⟩

/-- One step of the address scan in create (digital_ocean.py lines 461-470)
restricted to the ssh_host assignment: a public address is taken when ssh_host
is still falsy, every other address leaves it unchanged. -/
def sshSelectFold (acc : Option String) (net : NetAddr) : Option String :=
  if net.type = "public" then
    match acc with
    | none => some net.ip_address
    | some h => some h
  else acc

/-- The ssh_host value after the scan of create lines 461-470: the v4 list is
iterated before the v6 list, in list order, starting from the given ssh_host
value. -/
def sshHostAfterLoop (networks : Networks) (ssh_host : Option String) : Option String :=
  (networks.v4 ++ networks.v6).foldl sshSelectFold ssh_host

/-- Message of the SaltCloudSystemExit raised when no address was selected
(digital_ocean.py lines 472-475). -/
def noSshMsg : String := "No suitable IP addresses found for ssh minion bootstrapping"

/-- Embeds the bootstrap-target selection of create (lines 455-475) for a vm
dict with no preset ssh_host (the source then sets it to None): scan all
addresses, v4 before v6, and fail with SaltCloudSystemExit when the scan left
ssh_host at None. -/
def sshBootstrapTarget (networks : Networks) : Except PyError String :=
  match sshHostAfterLoop networks none with
  | some h => .ok h
  | none => .error (.saltCloudSystemExit noSshMsg)

/-- One page of a paginated listing response: the items array plus the key set
of the pages dict under links, when both are present. none models the KeyError
path of the source, taken when links or pages is absent. -/
structure Page where
  items : List String
  links_pages : Option (List String)
  deriving Repr, DecidableEq

/-- Embeds the continuation test of the listing loops (digital_ocean.py lines
1181-1185, likewise 142-146): fetch continues exactly when the pages dict is
present and contains the key next; an absent links or pages dict is caught as
KeyError and stops the loop. -/
def pageHasNext (p : Page) : Bool :=
  match p.links_pages with
  | some keys => keys.contains "next"
  | none => false

/-- Embeds the paginated listing loop of _list_nodes and avail_images
(digital_ocean.py lines 1157-1187 and 130-148): starting from page number
page, fetch the page, keep its items, and continue with the next page number
exactly while the continuation test holds. remote gives the response for each
page number; fuel bounds the number of fetches so the model is total, and the
theorems show the loop stops on its own once a page without a next link is
reached, regardless of how much fuel remains. -/
def listPagesLoop (remote : Nat → Page) : Nat → Nat → List String
  | 0, _ => []
  | fuel + 1, page =>
    (remote page).items ++
      (if pageHasNext (remote page) then listPagesLoop remote fuel (page + 1) else [])

/-- Concatenation of the items of n consecutive pages starting at page number
start, in provider order. -/
def pagesConcat (remote : Nat → Page) : Nat → Nat → List String
  | _, 0 => []
  | start, n + 1 => (remote start).items ++ pagesConcat remote (start + 1) n

/-- One size descriptor as avail_sizes keys it: the provider slug. The other
fields of the size dict are never consulted by get_size. -/
structure SizeDesc where
  slug : String
  deriving Repr, DecidableEq

/-- Message of the SaltCloudNotFound raised by get_size, carrying the
selector. -/
def sizeNotFoundMsg (sel : String) : String :=
  "The specified size, " ++ sel ++ ", could not be found."

/-- Embeds get_size (digital_ocean.py lines 225-238): scan the size collection
for the first descriptor whose stored slug equals the lower-cased selector
(only the selector is lower-cased) and return its slug; raise
SaltCloudNotFound carrying the selector when none matches. -/
def get_size (sizes : List SizeDesc) (vm_size : String) : Except PyError String :=
  match sizes.find? (fun s => pyLower vm_size == s.slug) with
  | some s => .ok s.slug
  | none => .error (.saltCloudNotFound (sizeNotFoundMsg vm_size))

/-- Lookup of a key name in the keypair collection of list_keypairs, modelled
as an association list from key name to stringified key id. -/
def keypairLookup : List (String × String) → String → Option String
  | [], _ => none
  | (n, i) :: rest, k => if n = k then some i else keypairLookup rest k

/-- Embeds get_keyid (digital_ocean.py lines 714-724): a falsy keyname returns
None; otherwise the keypair dict is indexed with the keyname, which raises
KeyError when the name is absent; a truthy id is returned and the final
SaltCloudNotFound raise is reached only when the stored id is falsy. -/
def get_keyid (keypairs : List (String × String)) (keyname : String) :
    Except PyError (Option String) :=
  if keyname = "" then .ok none
  else
    match keypairLookup keypairs keyname with
    | none => .error (.keyError keyname)
    | some kid =>
      if kid ≠ "" then .ok (some kid)
      else .error (.saltCloudNotFound "The specified ssh key could not be found.")

/-- Value post_dns_record produces when it does not raise: the result of the
record write, or the no-op False taken when the domain read is falsy. -/
inductive PostDnsReturn where
  | result (q : QueryOut)
  | noOpFalse

/-- Observable outcome of post_dns_record: whether the record write was issued
at all, and the returned value or propagated error. -/
structure PostDnsTrace where
  writeIssued : Bool
  outcome : Except PyError PostDnsReturn

/-- Embeds post_dns_record (digital_ocean.py lines 795-811): first read the
domain; an error from that query propagates and no write is issued. On a
truthy read result the record write is issued and its result returned; on a
falsy read result the function returns False without writing. domainResp and
recordResp are the HTTP responses of the two query calls. -/
def post_dns_record (domainResp recordResp : HttpResponse) : PostDnsTrace :=
  match queryResp domainResp with
  | .error e => ⟨false, .error e⟩
  | .ok dom =>
    if queryOutTruthy dom then
      match queryResp recordResp with
      | .error e => ⟨true, .error e⟩
      | .ok r => ⟨true, .ok (.result r)⟩
    else ⟨false, .ok .noOpFalse⟩

/-- Helper: a list every element of which fails a boolean predicate has any
equal to false. -/
theorem any_eq_false_of_all_not {α : Type} (p : α → Bool) (l : List α)
    (h : l.all (fun x => !(p x)) = true) : l.any p = false := by
  rw [Bool.eq_false_iff]
  intro hc
  rw [List.any_eq_true] at hc
  obtain ⟨x, hx, hpx⟩ := hc
  rw [List.all_eq_true] at h
  have hnx := h x hx
  rw [hpx] at hnx
  exact Bool.noConfusion hnx

/-- Helper: a poll result with no public v4 address is reported not ready. -/
theorem queryNodeData_none_of_noPublic (d : Droplet)
    (h : (d.networks.v4 ++ d.networks.v6).all (fun n => !(n.type == "public")) = true) :
    queryNodeData (some d) = none := by
  have h4 : d.networks.v4.all (fun n => !(n.type == "public")) = true := by
    rw [List.all_append, Bool.and_eq_true] at h
    exact h.1
  have hany := any_eq_false_of_all_not _ _ h4
  simp only [queryNodeData, hany]
  cases d.networks.v4.isEmpty <;> simp

/-- Helper: when the update callback never reports ready, the modelled
wait_for_ip exhausts any poll budget and raises the timeout error. -/
theorem waitForIp_never (update : Nat → Option Droplet)
    (h : ∀ j, update j = none) :
    ∀ fuel k, waitForIp update fuel k =
      .error (.saltCloudExecutionTimeout waitTimeoutMsg) := by
  intro fuel
  induction fuel with
  | zero => intro k; rfl
  | succ n ih =>
    intro k
    simp only [waitForIp, h k]
    exact ih (k + 1)

/-- Claim C10: query raises a fatal SaltCloudSystemExit not only for an HTTP
status above 299, but also for any 2xx non-204 response whose decoded body
carries a status field that lower-cases to error; such a response never
yields a successful result. -/
theorem C10_query_error_body :
    (∀ code body, 299 < code →
      queryHandle code body = .error (.saltCloudSystemExit (httpErrMsg code))) ∧
    (∀ code fields s, 200 ≤ code → code ≤ 299 → code ≠ 204 →
      jLookup fields "status" = some (.str s) → pyLower s = "error" →
      queryHandle code (.obj fields) = .error (.saltCloudSystemExit statusErrorMsg)) := by
  constructor
  · intro code body h
    unfold queryHandle
    rw [if_pos h]
  · intro code fields s _ h299 h204 hstatus hlower
    unfold queryHandle
    rw [if_neg (by omega), if_neg h204]
    simp only [hstatus]
    rw [if_pos hlower]

/-- Witness for C10 at concrete responses: a 404, and a 200 whose body says
status ERROR. -/
theorem C10_query_error_body_witness :
    queryHandle 404 (.obj []) = .error (.saltCloudSystemExit (httpErrMsg 404)) ∧
    queryHandle 200 (.obj [("status", .str "ERROR")]) =
      .error (.saltCloudSystemExit statusErrorMsg) :=
  ⟨C10_query_error_body.1 404 (.obj []) (by decide),
   C10_query_error_body.2 200 [("status", .str "ERROR")] "ERROR"
     (by decide) (by decide) (by decide) rfl rfl⟩

/-- Claim C1 (counterexample): a droplet whose only public address is in the
v6 list has a public address in the union of the two families, yet the poll
reports it not ready, refuting the either-family readiness condition. -/
theorem C1_poll_counterexample :
    queryNodeData (some (⟨"web1", ⟨[], [⟨"public", "2a03-b0c0-2"⟩]⟩⟩ : Droplet)) = none ∧
    (([] : List NetAddr) ++ [(⟨"public", "2a03-b0c0-2"⟩ : NetAddr)]).any
      (fun n => n.type == "public") = true := by
  constructor
  · rfl
  · decide

/-- Claim C1 (amended): a single poll succeeds exactly when the fetched
droplet has at least one address tagged public in its v4 list; the v6 list is
never consulted, so a droplet with a public v6 address but no public v4
address is not considered ready. -/
theorem C1_poll_v4_only (d : Droplet) :
    queryNodeData (some d) =
      (if d.networks.v4.any (fun n => n.type == "public") then some d else none) := by
  simp only [queryNodeData]
  cases hv : d.networks.v4 with
  | nil => simp
  | cons a t => simp

/-- Claim C2: when the address source never reports a public address, the wait
phase of create times out, issues exactly one destroy call for the instance
name, and surfaces the original timeout error as a SaltCloudSystemExit built
from it, whatever the compensating destroy itself did; a poll failure error is
handled the same way. The v6 list is included in the hypothesis although the
poll only reads v4, so the hypothesis is exactly an address source that never
reports a public address in either family. -/
theorem C2_timeout_compensation (name : String) (polls : Nat)
    (source : Nat → Option Droplet) (destroyResult : Except PyError QueryOut)
    (m : String)
    (hnever : ∀ k d, source k = some d →
      (d.networks.v4 ++ d.networks.v6).all (fun n => !(n.type == "public")) = true) :
    createWaitPhase name polls source destroyResult =
      ⟨[name], .error (.saltCloudSystemExit waitTimeoutMsg)⟩ ∧
    createPollExcept name (.error (.saltCloudExecutionFailure m)) destroyResult =
      ⟨[name], .error (.saltCloudSystemExit m)⟩ := by
  constructor
  · unfold createWaitPhase
    have hupd : ∀ k, queryNodeData (source k) = none := by
      intro k
      cases hs : source k with
      | none => rfl
      | some d => exact queryNodeData_none_of_noPublic d (hnever k d hs)
    have hw := waitForIp_never (fun k => queryNodeData (source k)) hupd polls 0
    rw [hw]
    rfl
  · rfl

/-- Witness for C2: a source that always shows one private v4 address, a
destroy that itself fails with a SaltCloudSystemExit, and a poll budget of
three. -/
theorem C2_timeout_compensation_witness :
    createWaitPhase "web1" 3
        (fun _ => some (⟨"web1", ⟨[⟨"private", "10.0.0.2"⟩], []⟩⟩ : Droplet))
        (.error (.saltCloudSystemExit "destroy failed")) =
      ⟨["web1"], .error (.saltCloudSystemExit waitTimeoutMsg)⟩ ∧
    createPollExcept "web1" (.error (.saltCloudExecutionFailure "poll raised"))
        (.error (.saltCloudSystemExit "destroy failed")) =
      ⟨["web1"], .error (.saltCloudSystemExit "poll raised")⟩ :=
  C2_timeout_compensation "web1" 3
    (fun _ => some (⟨"web1", ⟨[⟨"private", "10.0.0.2"⟩], []⟩⟩ : Droplet))
    (.error (.saltCloudSystemExit "destroy failed")) "poll raised"
    (by
      intro k d h
      rw [← Option.some.inj h]
      decide)

/-- Claim C3 (counterexample): when the provider does not manage the domain
the domain read comes back with an error status (HTTP 404); post_dns_record
then performs no write but propagates the fatal query error instead of
returning the no-op False the claim states. -/
theorem C3_unmanaged_domain_counterexample :
    (post_dns_record ⟨404, .obj [("id", .str "not_found")]⟩
        ⟨201, .obj [("domain_record", .obj [])]⟩).writeIssued = false ∧
    (post_dns_record ⟨404, .obj [("id", .str "not_found")]⟩
        ⟨201, .obj [("domain_record", .obj [])]⟩).outcome =
      .error (.saltCloudSystemExit (httpErrMsg 404)) ∧
    (post_dns_record ⟨404, .obj [("id", .str "not_found")]⟩
        ⟨201, .obj [("domain_record", .obj [])]⟩).outcome ≠ .ok .noOpFalse := by
  refine ⟨rfl, rfl, fun h => ?_⟩
  exact nomatch h

/-- Claim C3 (amended): when the domain read returns an HTTP error status, as
the provider does for an unmanaged domain, post_dns_record issues no record
write and raises the fatal query error; the no-op False return is reached
exactly when the domain read succeeds with a falsy result, and then too no
write is issued. -/
theorem C3_unmanaged_domain_noop (domainResp recordResp : HttpResponse) :
    (299 < domainResp.status_code →
      (post_dns_record domainResp recordResp).writeIssued = false ∧
      (post_dns_record domainResp recordResp).outcome =
        .error (.saltCloudSystemExit (httpErrMsg domainResp.status_code))) ∧
    (∀ dom, queryResp domainResp = .ok dom → queryOutTruthy dom = false →
      (post_dns_record domainResp recordResp).writeIssued = false ∧
      (post_dns_record domainResp recordResp).outcome = .ok .noOpFalse) := by
  constructor
  · intro h
    have hq : queryResp domainResp =
        .error (.saltCloudSystemExit (httpErrMsg domainResp.status_code)) := by
      unfold queryResp queryHandle
      rw [if_pos h]
    unfold post_dns_record
    rw [hq]
    exact ⟨rfl, rfl⟩
  · intro dom hq ht
    unfold post_dns_record
    rw [hq]
    simp only [ht]
    exact ⟨rfl, rfl⟩

/-- Witness for C3 at concrete responses: a 404 domain read, and a 200 domain
read whose decoded body is an empty object, hence falsy. -/
theorem C3_unmanaged_domain_noop_witness :
    ((post_dns_record ⟨404, .obj []⟩ ⟨201, .obj []⟩).writeIssued = false ∧
     (post_dns_record ⟨404, .obj []⟩ ⟨201, .obj []⟩).outcome =
       .error (.saltCloudSystemExit (httpErrMsg 404))) ∧
    ((post_dns_record ⟨200, .obj []⟩ ⟨201, .obj []⟩).writeIssued = false ∧
     (post_dns_record ⟨200, .obj []⟩ ⟨201, .obj []⟩).outcome = .ok .noOpFalse) :=
  ⟨(C3_unmanaged_domain_noop ⟨404, .obj []⟩ ⟨201, .obj []⟩).1 (by decide),
   (C3_unmanaged_domain_noop ⟨200, .obj []⟩ ⟨201, .obj []⟩).2 (.json (.obj []))
     rfl rfl⟩

/-- Claim C4 (code evaluation at the failing input): destroying
web1.example.com against records web1 with ids 1 and 2 and other with id 3,
where the deletion of id 1 fails, attempts only the deletion of id 1 and then
raises NameError: the except swallowed the provider error but the following
debug log reads the local ret, which no successful deletion has bound yet. So
id 2 is never deleted and the error propagates out of destroy_dns_records
into destroy, which does not catch it. -/
theorem C4_first_delete_failure_namerror :
    destroy_dns_records "web1.example.com"
        [⟨1, "web1", "A"⟩, ⟨2, "web1", "A"⟩, ⟨3, "other", "A"⟩]
        (fun id => id != 1) =
      ⟨"example.com", [1], .error (.nameError "ret")⟩ := by
  decide

/-- Claim C5 (counterexample): for the two-label name web1.example the claim
makes the whole name the hostname in create and has destroy derive the same;
in fact create keeps only the first label web1 and the destroy cleanup derives
an empty hostname under domain web1.example. -/
theorem C5_two_label_counterexample :
    ¬ ((createDnsDefaults "web1.example").2 = "web1.example" ∧
       (destroyDnsDerive "web1.example").2 = (createDnsDefaults "web1.example").2) := by
  decide

/-- Claim C5 (amended): with more than two labels, create and the destroy
cleanup agree: the rightmost two labels joined are the domain and the labels
before them the hostname. With at most two labels, create infers no domain
and takes the first label as the default hostname, and create with DNS sync
requested and no explicit override raises SaltCloudConfigError; the destroy
cleanup instead applies its rule unconditionally, making the whole name the
domain and the empty string the hostname. -/
theorem C5_fqdn_decomposition (name : String) :
    (2 < (pySplitDot name).length →
      createDnsDefaults name =
        (some (joinDot ((pySplitDot name).drop ((pySplitDot name).length - 2))),
         joinDot ((pySplitDot name).take ((pySplitDot name).length - 2))) ∧
      destroyDnsDerive name =
        (joinDot ((pySplitDot name).drop ((pySplitDot name).length - 2)),
         joinDot ((pySplitDot name).take ((pySplitDot name).length - 2)))) ∧
    ((pySplitDot name).length ≤ 2 →
      createDnsDefaults name = (none, (pySplitDot name).headD "") ∧
      createDnsSetup name = .error (.saltCloudConfigError configErrMsg) ∧
      destroyDnsDerive name = (joinDot (pySplitDot name), "")) := by
  constructor
  · intro h
    constructor
    · simp only [createDnsDefaults]
      rw [if_pos h]
    · rfl
  · intro h
    have hnot : ¬ (2 < (pySplitDot name).length) := by omega
    have hc : createDnsDefaults name = (none, (pySplitDot name).headD "") := by
      simp only [createDnsDefaults]
      rw [if_neg hnot]
    refine ⟨hc, ?_, ?_⟩
    · unfold createDnsSetup
      rw [hc]
    · have h0 : (pySplitDot name).length - 2 = 0 := by omega
      simp only [destroyDnsDerive, h0, List.drop_zero, List.take_zero]
      rfl

/-- Witness for C5 at concrete names: the four-label name web1.us.example.com
and the single-label name web1. -/
theorem C5_fqdn_decomposition_witness :
    (createDnsDefaults "web1.us.example.com" = (some "example.com", "web1.us") ∧
     destroyDnsDerive "web1.us.example.com" = ("example.com", "web1.us")) ∧
    (createDnsDefaults "web1" = (none, "web1") ∧
     createDnsSetup "web1" = .error (.saltCloudConfigError configErrMsg) ∧
     destroyDnsDerive "web1" = ("web1", "")) := by
  constructor
  · have h := (C5_fqdn_decomposition "web1.us.example.com").1 (by decide)
    exact ⟨h.1.trans (by decide), h.2.trans (by decide)⟩
  · have h := (C5_fqdn_decomposition "web1").2 (by decide)
    exact ⟨h.1.trans (by decide), h.2.1, h.2.2.trans (by decide)⟩

/-- Helper: once ssh_host is set, the address scan never changes it. -/
theorem foldl_sshSelectFold_some (h : String) :
    ∀ l : List NetAddr, l.foldl sshSelectFold (some h) = some h := by
  intro l
  induction l with
  | nil => rfl
  | cons a t ih =>
    have hstep : sshSelectFold (some h) a = some h := by
      unfold sshSelectFold
      split <;> rfl
    rw [List.foldl_cons, hstep]
    exact ih

/-- Helper: starting unset, the address scan ends at the first address tagged
public, in list order. -/
theorem foldl_sshSelectFold_none :
    ∀ l : List NetAddr,
      l.foldl sshSelectFold none =
        ((l.filter (fun n => n.type == "public")).head?).map (fun n => n.ip_address) := by
  intro l
  induction l with
  | nil => rfl
  | cons a t ih =>
    rw [List.foldl_cons]
    by_cases hp : a.type = "public"
    · have h1 : sshSelectFold none a = some a.ip_address := by
        unfold sshSelectFold
        rw [if_pos hp]
      have h2 : (a :: t).filter (fun n => n.type == "public") =
          a :: t.filter (fun n => n.type == "public") := by
        simp [List.filter_cons, hp]
      rw [h1, h2, foldl_sshSelectFold_some]
      rfl
    · have h1 : sshSelectFold none a = none := by
        unfold sshSelectFold
        rw [if_neg hp]
      have h2 : (a :: t).filter (fun n => n.type == "public") =
          t.filter (fun n => n.type == "public") := by
        simp [List.filter_cons, hp]
      rw [h1, h2]
      exact ih

/-- Claim C6: after a successful poll, create picks as ssh bootstrap target
the first address tagged public with every v4 address scanned before every v6
address, and when no public address exists in either family it raises instead
of handing off to bootstrap. -/
theorem C6_ssh_target_selection (networks : Networks) :
    sshBootstrapTarget networks =
      match (networks.v4.filter (fun n => n.type == "public") ++
             networks.v6.filter (fun n => n.type == "public")).head? with
      | some n => .ok n.ip_address
      | none => .error (.saltCloudSystemExit noSshMsg) := by
  unfold sshBootstrapTarget sshHostAfterLoop
  rw [foldl_sshSelectFold_none, ← List.filter_append]
  cases ((networks.v4 ++ networks.v6).filter (fun n => n.type == "public")).head? <;> rfl

/-- Helper: when every page before the n-th, counting from start, has a next
link and the n-th has none, the listing loop with any fuel of at least n
returns the items of exactly those n pages in order: it stops by itself at
the first page without a next link. -/
theorem listPagesLoop_stops (remote : Nat → Page) :
    ∀ n start fuel, 1 ≤ n → n ≤ fuel →
      (∀ j, start ≤ j → j + 1 < start + n → pageHasNext (remote j) = true) →
      pageHasNext (remote (start + n - 1)) = false →
      listPagesLoop remote fuel start = pagesConcat remote start n := by
  intro n
  induction n with
  | zero => intro start fuel h1; omega
  | succ m ih =>
    intro start fuel _ hfuel hmid hlast
    cases fuel with
    | zero => omega
    | succ f =>
      by_cases hm : m = 0
      · subst hm
        have hl : pageHasNext (remote start) = false := by
          have : start + 1 - 1 = start := by omega
          rw [this] at hlast
          exact hlast
        simp only [listPagesLoop, pagesConcat, hl, Bool.false_eq_true, if_false]
      · have hm1 : 1 ≤ m := Nat.one_le_iff_ne_zero.mpr hm
        have hfirst : pageHasNext (remote start) = true := by
          exact hmid start (Nat.le_refl start) (by omega)
        simp only [listPagesLoop, pagesConcat, hfirst, if_true]
        congr 1
        apply ih (start + 1) f hm1 (by omega)
        · intro j hj1 hj2
          exact hmid j (by omega) (by omega)
        · have : start + 1 + m - 1 = start + (m + 1) - 1 := by omega
          rw [this]
          exact hlast

/-- Claim C7: a collection split across n pages, each page before the last
carrying a next link and the last not (in particular a malformed last page
with the links or pages structure absent), is returned in full and in order
by the listing loop, which stops after those n fetches no matter how much
more fuel it is given: the continuation test is exactly the presence of the
key next in the pages structure, with an absent structure treated as no more
pages. -/
theorem C7_pagination_complete (remote : Nat → Page) (n fuel : Nat)
    (hn : 1 ≤ n) (hfuel : n ≤ fuel)
    (hmid : ∀ k, 1 ≤ k → k < n → pageHasNext (remote k) = true)
    (hlast : pageHasNext (remote n) = false) :
    listPagesLoop remote fuel 1 = pagesConcat remote 1 n := by
  apply listPagesLoop_stops remote n 1 fuel hn hfuel
  · intro j hj1 hj2
    exact hmid j hj1 (by omega)
  · have h1 : 1 + n - 1 = n := by omega
    rw [h1]
    exact hlast

/-- Witness for C7: two pages with items a, b and c, the first carrying a
next link and the second malformed with no links structure at all; with fuel
nine the loop still returns exactly the three items. -/
theorem C7_pagination_complete_witness :
    listPagesLoop
        (fun k => if k = 1 then ⟨["a", "b"], some ["first", "next", "last"]⟩
                  else ⟨["c"], none⟩) 9 1 =
      ["a", "b", "c"] := by
  have h := C7_pagination_complete
    (fun k => if k = 1 then ⟨["a", "b"], some ["first", "next", "last"]⟩
              else ⟨["c"], none⟩) 2 9
    (by decide) (by decide)
    (by
      intro k h1 h2
      have hk : k = 1 := by omega
      subst hk
      decide)
    (by decide)
  exact h.trans (by decide)

/-- Claim C8 (counterexample): with a single stored slug S-1VCPU-1GB and the
selector s-1vcpu-1gb, equal up to letter case, get_size raises
SaltCloudNotFound instead of returning the slug: only the selector is
lower-cased, the stored slug is compared as-is. -/
theorem C8_case_counterexample :
    get_size [⟨"S-1VCPU-1GB"⟩] "s-1vcpu-1gb" =
      .error (.saltCloudNotFound (sizeNotFoundMsg "s-1vcpu-1gb")) ∧
    get_size [⟨"S-1VCPU-1GB"⟩] "s-1vcpu-1gb" ≠ .ok "S-1VCPU-1GB" := by
  constructor
  · rfl
  · decide

/-- Helper: find? only depends on the pointwise values of its predicate on
the list. -/
theorem find?_congr_on {α : Type} (p q : α → Bool) :
    ∀ l : List α, (∀ d ∈ l, p d = q d) → l.find? p = l.find? q := by
  intro l
  induction l with
  | nil => intro _; rfl
  | cons a t ih =>
    intro h
    have ha : p a = q a := h a (List.mem_cons_self a t)
    cases hq : q a with
    | true =>
      rw [List.find?_cons_of_pos _ (ha.trans hq), List.find?_cons_of_pos _ hq]
    | false =>
      rw [List.find?_cons_of_neg _ (by simp [ha, hq]), List.find?_cons_of_neg _ (by simp [hq])]
      exact ih (fun d hd => h d (List.mem_cons_of_mem a hd))

/-- Claim C8 (amended): get_size compares the lower-cased selector against
the stored slug as-is, first match winning and a miss raising
SaltCloudNotFound carrying the selector; hence when every stored slug is
already lower case, the match is genuinely case-insensitive equality of
slugs. -/
theorem C8_size_matching_lowercase (sizes : List SizeDesc) (sel : String)
    (hlow : ∀ d ∈ sizes, pyLower d.slug = d.slug) :
    get_size sizes sel =
      match sizes.find? (fun d => pyLower d.slug == pyLower sel) with
      | some d => .ok d.slug
      | none => .error (.saltCloudNotFound (sizeNotFoundMsg sel)) := by
  unfold get_size
  rw [find?_congr_on (fun s => pyLower sel == s.slug)
      (fun d => pyLower d.slug == pyLower sel) sizes ?_]
  intro d hd
  show (pyLower sel == d.slug) = (pyLower d.slug == pyLower sel)
  rw [hlow d hd]
  by_cases h : pyLower sel = d.slug
  · rw [h]
  · rw [Bool.eq_iff_iff]
    simp [beq_iff_eq, h, Ne.symm h]

/-- Witness for C8: two lower-case stored slugs and the upper-case selector
S-1VCPU-1GB resolve to the first slug. -/
theorem C8_size_matching_lowercase_witness :
    get_size [⟨"s-1vcpu-1gb"⟩, ⟨"s-2vcpu-2gb"⟩] "S-1VCPU-1GB" = .ok "s-1vcpu-1gb" := by
  have h := C8_size_matching_lowercase [⟨"s-1vcpu-1gb"⟩, ⟨"s-2vcpu-2gb"⟩] "S-1VCPU-1GB"
    (by decide)
  exact h.trans (by decide)

/-- Claim C9 (code evaluation at the failing input): resolving the key name
otherkey against a keypair collection holding only mykey raises the bare
KeyError of the dict lookup, not the SaltCloudNotFound of the error taxonomy;
the SaltCloudNotFound raise inside get_keyid is unreachable for a missing
name because the dict indexing raises first. -/
theorem C9_missing_keyname_keyerror :
    get_keyid [("mykey", "12345")] "otherkey" = .error (.keyError "otherkey") ∧
    get_keyid [("mykey", "12345")] "otherkey" ≠
      .error (.saltCloudNotFound "The specified ssh key could not be found.") := by
  constructor
  · rfl
  · decide
